import Mathlib

/-!
Shallow embedding of `src/backend/llm_client.py` (repository bkohler/llm-council):
a fan-out LLM client with two operations, `query_model` (resolve a provider from
a `provider::model` identifier, check the credential, POST, normalize the
response or return the absence marker `none`) and `query_models_parallel`
(dispatch every identifier and collect a dict keyed by identifier).

Python strings are modelled by `String`, character-level slicing through the
underlying `List Char`; Python dicts by association lists with Python's
insertion/update semantics; the JSON values a response body parses to by the
inductive `Json` (Python `None` is `Json.null`); an HTTP interaction by a
`Transport` function from (timeout, url, headers, payload) to an outcome that
either raises (`HttpOutcome.exn`, covering network failures and timeouts) or
returns a status code and a body (`none` body = `response.json()` raised).
-/

namespace LlmCouncil

/-- JSON-like values as Python sees them after `response.json()`. -/
inductive Json where
  | null : Json
  | bool : Bool → Json
  | num : Int → Json
  | str : String → Json
  | arr : List Json → Json
  | obj : List (String × Json) → Json

/-- Python `s.startswith(pre)`: character-level prefix test. -/
def pyStartsWith (s pre : String) : Bool :=
  pre.data.isPrefixOf s.data

/-- Python `len(s)`: number of characters. -/
def pyLen (s : String) : Nat :=
  s.data.length

/-- Python `s[n:]`: drop the first `n` characters. -/
def pyDrop (s : String) (n : Nat) : String :=
  ⟨s.data.drop n⟩

/-- Python truthiness test `not x` for an optional string: true when the
string is absent (`None`) or empty. -/
def pyFalsy (s : Option String) : Bool :=
  s.getD "" == ""

/-- Python `d[k]` on a parsed-JSON value when used as a dict: succeeds only on
an object holding key `k` (any other shape raises, which the caller's
`try` turns into `none`). -/
def Json.getField? : Json → String → Option Json
  | Json.obj fields, k => (fields.find? (fun f => f.1 == k)).map Prod.snd
  | _, _ => none

/-- Python `x[i]` on a parsed-JSON value when used as a sequence of JSON
values: succeeds only on an array with `i` in range (indexing anything
else either raises or yields a non-dict that makes the next subscript
raise; both end in the caller's `except`). -/
def Json.getIdx? : Json → Nat → Option Json
  | Json.arr elems, i => elems.get? i
  | _, _ => none

/-- Python `d.get(k)` on a dict of parsed JSON: the value, or `None`
(modelled `Json.null`) when the key is absent. -/
def pyDictGet (fields : List (String × Json)) (k : String) : Json :=
  match fields.find? (fun f => f.1 == k) with
  | some f => f.2
  | none => Json.null

/-- One provider's entry of `PROVIDER_CONFIGS` in `llm_client.py`. -/
structure ProviderConfig where
  api_key : Option String
  api_url : String
  model_prefix : String
  header_auth_prefix : String

/-- Modelled from the spec: `src/backend/config.py` is imported by
`llm_client.py` but missing from the sources. Per the spec's configuration
surface it supplies, per provider, a credential string (possibly absent)
and an endpoint URL override for OpenRouter, read once at startup and
immutable thereafter. -/
structure Env where
  OPENROUTER_API_KEY : Option String
  OPENROUTER_API_URL : String
  DEEPSEEK_API_KEY : Option String
  OPENAI_API_KEY : Option String

/-- `DEEPSEEK_API_URL` constant in `llm_client.py`. -/
def DEEPSEEK_API_URL : String := "https://api.deepseek.com/chat/completions"

/-- `OPENAI_API_URL` constant in `llm_client.py`. -/
def OPENAI_API_URL : String := "https://api.openai.com/v1/chat/completions"

/-- The `PROVIDER_CONFIGS` dict of `llm_client.py`, as an association list in
registration (insertion) order: openrouter, deepseek, openai. -/
def PROVIDER_CONFIGS (env : Env) : List (String × ProviderConfig) :=
  [("openrouter", ⟨env.OPENROUTER_API_KEY, env.OPENROUTER_API_URL, "openrouter::", "Bearer "⟩),
   ("deepseek", ⟨env.DEEPSEEK_API_KEY, DEEPSEEK_API_URL, "deepseek::", "Bearer "⟩),
   ("openai", ⟨env.OPENAI_API_KEY, OPENAI_API_URL, "openai::", "Bearer "⟩)]

/-- The provider-determination loop of `query_model`: scan `PROVIDER_CONFIGS`
in registration order for the first entry whose `model_prefix` the
identifier starts with; on a match, return the provider name and the
identifier with the prefix stripped, else no provider and the identifier
unchanged. -/
def resolve (env : Env) (model_identifier : String) : Option String × String :=
  match (PROVIDER_CONFIGS env).find? (fun pc => pyStartsWith model_identifier ( ProviderConfig.model_prefix pc.2)) with
  | some (provider, config) => (some provider, pyDrop model_identifier (pyLen ( ProviderConfig.model_prefix config)))
  | none => (none, model_identifier)

/-- The provider name `query_model` ends up using: the resolved one, or
`"openrouter"` as the backward-compatibility default. -/
def resolvedProviderName (env : Env) (model_identifier : String) : String :=
  ((resolve env model_identifier).1).getD "openrouter"

/-- The bare model name `query_model` puts into the request payload. -/
def resolvedModelName (env : Env) (model_identifier : String) : String :=
  (resolve env model_identifier).2

/-- `PROVIDER_CONFIGS.get(provider_name)` for the provider `query_model`
resolved. -/
def usedConfig (env : Env) (model_identifier : String) : Option ProviderConfig :=
  ((PROVIDER_CONFIGS env).find? (fun pc => pc.1 == resolvedProviderName env model_identifier)).map Prod.snd

/-- True when the provider `query_model` resolves for this identifier exists
and its credential is unset or empty (Python `if not api_key`). -/
def credentialMissing (env : Env) (model_identifier : String) : Bool :=
  match usedConfig env model_identifier with
  | some config => pyFalsy config.api_key
  | none => false

/-- A chat message, Python `Dict[str, str]`. -/
abbrev Message := List (String × String)

/-- The `messages` entry of the request payload: the message dicts passed
through verbatim as JSON. -/
def messagesJson (messages : List Message) : Json :=
  Json.arr (messages.map (fun m => Json.obj (m.map (fun rc => (rc.1, Json.str rc.2)))))

/-- Outcome of the `client.post` call inside the `try` block: either some
exception was raised before a response was available (connection error,
timeout), or a response arrived with a status code and a body that parses
to JSON or does not (`none` = `response.json()` raised). -/
inductive HttpOutcome where
  | exn : HttpOutcome
  | response : Nat → Option Json → HttpOutcome

/-- The HTTP layer, as a function of the timeout, the URL, the headers and
the JSON payload `query_model` sends. -/
abbrev Transport := Rat → String → List (String × String) → Json → HttpOutcome

/-- `data['choices'][0]['message']` inside the `try` block. -/
def extractMessage (data : Json) : Option Json :=
  ((data.getField? "choices").bind (fun c => c.getIdx? 0)).bind (fun c0 => c0.getField? "message")

/-- The dict `query_model` returns on success. -/
structure NormalizedResult where
  content : Json
  reasoning_details : Json

/-- The `try` block of `query_model` after the POST returned: Python
`response.raise_for_status()` raises unless the status is 2xx, then the
body is parsed, `choices[0].message` extracted, and `content` and
`reasoning_details` read off with `dict.get`; every raise is caught by the
`except` and becomes `none`. -/
def processOutcome (o : HttpOutcome) : Option NormalizedResult :=
  match o with
  | HttpOutcome.exn => none
  | HttpOutcome.response status_code body =>
    if 200 ≤ status_code ∧ status_code < 300 then
      match body with
      | none => none
      | some data =>
        match extractMessage data with
        | some (Json.obj message) =>
          some ⟨pyDictGet message "content", pyDictGet message "reasoning_details"⟩
        | some _ => none
        | none => none
    else none

/-- `query_model` of `llm_client.py`: resolve the provider, look up its
configuration, fail on a missing credential without touching the network,
otherwise POST the payload through the transport and normalize the
outcome. -/
def query_model (env : Env) (transport : Transport) (model_identifier : String)
    (messages : List Message) (timeout : Rat := 120) : Option NormalizedResult :=
  let model_name := resolvedModelName env model_identifier
  match usedConfig env model_identifier with
  | none => none
  | some config =>
    if pyFalsy config.api_key then none
    else
      let headers := [("Authorization", ProviderConfig.header_auth_prefix config ++ config.api_key.getD ""),
                      ("Content-Type", "application/json")]
      let payload := Json.obj [("model", Json.str model_name), ("messages", messagesJson messages)]
      processOutcome (transport timeout config.api_url headers payload)

/-- Python dict insertion `d[k] = v`: update the value in place when the key
exists, else append the new pair. -/
def pyDictInsert {α : Type} (d : List (String × α)) (k : String) (v : α) : List (String × α) :=
  if d.any (fun p => p.1 == k) then d.map (fun p => if p.1 == k then (k, v) else p)
  else d ++ [(k, v)]

/-- A Python dict comprehension over a list of key/value pairs, inserting in
list order. -/
def pyDictOfPairs {α : Type} (pairs : List (String × α)) : List (String × α) :=
  pairs.foldl (fun d p => pyDictInsert d p.1 p.2) []

/-- The keys of a modelled Python dict. -/
def dictKeys {α : Type} (d : List (String × α)) : List String :=
  d.map Prod.fst

/-- Python `d[k]` lookup on a modelled dict. -/
def dictLookup {α : Type} (d : List (String × α)) (k : String) : Option α :=
  (d.find? (fun p => p.1 == k)).map Prod.snd

/-- `query_models_parallel` of `llm_client.py`: one `query_model` task per
identifier (default timeout), `asyncio.gather` returning the responses in
task order, and the dict comprehension zipping identifiers with
responses. -/
def query_models_parallel (env : Env) (transport : Transport)
    (model_identifiers : List String) (messages : List Message) :
    List (String × Option NormalizedResult) :=
  let responses := model_identifiers.map (fun model_id => query_model env transport model_id messages)
  pyDictOfPairs (model_identifiers.zip responses)

/-- The failure cases of §7 of the spec for one HTTP interaction: an exception
was raised before a response existed (network failure, timeout), the status
is not 2xx, the body is not JSON, or `choices[0].message` is missing or not
a dict. -/
def outcomeFails (o : HttpOutcome) : Prop :=
  match o with
  | HttpOutcome.exn => True
  | HttpOutcome.response status_code body =>
    status_code < 200 ∨ 300 ≤ status_code ∨ body = none ∨
      ∀ data, body = some data → ∀ fields, extractMessage data ≠ some (Json.obj fields)

/-- Concrete environment: OpenRouter and Deepseek credentials set, OpenAI
unset. -/
def env0 : Env :=
  ⟨some "k1", "https://openrouter.ai/api/v1/chat/completions", some "k2", none⟩

/-- Concrete environment with the OpenRouter credential unset. -/
def envNoKey : Env :=
  ⟨none, "https://openrouter.ai/api/v1/chat/completions", some "k2", none⟩

/-- A response body with `choices[0].message.content = "hi"` and no
`reasoning_details`. -/
def okBody : Json :=
  Json.obj [("choices", Json.arr [Json.obj [("message", Json.obj [("content", Json.str "hi")])]])]

/-- A transport whose POST always comes back HTTP 500. -/
def tServerError : Transport := fun _ _ _ _ => HttpOutcome.response 500 (some okBody)

/-- A transport whose POST always succeeds with `okBody`. -/
def tOk : Transport := fun _ _ _ _ => HttpOutcome.response 200 (some okBody)

/-- A transport whose POST always raises. -/
def tExn : Transport := fun _ _ _ _ => HttpOutcome.exn

/-- A transport that raises at timeout 120 and succeeds at any other
timeout. -/
def tTimeoutSensitive : Transport := fun tmo _ _ _ =>
  if tmo = 120 then HttpOutcome.exn else HttpOutcome.response 200 (some okBody)

/-! ### Helper lemmas -/

lemma isPrefixOf_self_append (a b : List Char) : a.isPrefixOf (a ++ b) = true := by
  induction a with
  | nil => simp [List.isPrefixOf]
  | cons c cs ih => simp [List.isPrefixOf, ih]

lemma pyStartsWith_self_append (pre m : String) : pyStartsWith (pre ++ m) pre = true := by
  unfold pyStartsWith
  rw [String.data_append]
  exact isPrefixOf_self_append pre.data m.data

lemma pyDrop_len_append (pre m : String) : pyDrop (pre ++ m) (pyLen pre) = m := by
  unfold pyDrop pyLen
  rw [String.data_append, List.drop_left]

lemma find?_of_first {α : Type} (p : α → Bool) :
    ∀ (l : List α) (i : Nat) (x : α), l[i]? = some x → p x = true →
      (∀ y ∈ l.take i, p y = false) → l.find? p = some x := by
  intro l
  induction l with
  | nil => intro i x h; simp at h
  | cons a as ih =>
    intro i x hget hx htake
    cases i with
    | zero =>
      simp at hget
      subst hget
      exact List.find?_cons_of_pos as hx
    | succ j =>
      have ha : p a = false := htake a (by simp)
      rw [List.find?_cons_of_neg as (by simp [ha])]
      refine ih j x (by simpa using hget) hx (fun y hy => htake y ?_)
      rw [List.take_succ_cons]
      exact List.mem_cons_of_mem a hy

lemma dictKeys_update {α : Type} (d : List (String × α)) (k : String) (v : α) :
    dictKeys (d.map (fun p => if p.1 == k then (k, v) else p)) = dictKeys d := by
  unfold dictKeys
  rw [List.map_map]
  apply List.map_congr_left
  intro p hp
  by_cases h : p.1 == k
  · simp only [Function.comp_apply]
    rw [if_pos h]
    exact (beq_iff_eq.mp h).symm
  · simp only [Function.comp_apply]
    rw [if_neg h]

lemma mem_dictKeys_pyDictInsert {α : Type} (d : List (String × α)) (k : String) (v : α)
    (a : String) : a ∈ dictKeys (pyDictInsert d k v) ↔ a ∈ dictKeys d ∨ a = k := by
  unfold pyDictInsert
  by_cases hany : d.any (fun p => p.1 == k) = true
  · rw [if_pos hany, dictKeys_update]
    obtain ⟨q, hq, hqk⟩ := List.any_eq_true.mp hany
    have hk : k ∈ dictKeys d := List.mem_map.mpr ⟨q, hq, beq_iff_eq.mp hqk⟩
    constructor
    · exact Or.inl
    · rintro (h | rfl)
      · exact h
      · exact hk
  · rw [if_neg hany]
    unfold dictKeys
    simp

lemma nodup_dictKeys_pyDictInsert {α : Type} (d : List (String × α)) (k : String) (v : α)
    (h : (dictKeys d).Nodup) : (dictKeys (pyDictInsert d k v)).Nodup := by
  unfold pyDictInsert
  by_cases hany : d.any (fun p => p.1 == k) = true
  · rw [if_pos hany, dictKeys_update]
    exact h
  · rw [if_neg hany]
    have hk : k ∉ dictKeys d := by
      intro hmem
      obtain ⟨q, hq, hfst⟩ := List.mem_map.mp hmem
      rw [List.any_eq_true] at hany
      exact hany ⟨q, hq, beq_iff_eq.mpr hfst⟩
    unfold dictKeys at *
    simp [List.nodup_append, h, hk]

lemma pyDictInsert_values {α : Type} (f : String → α) (d : List (String × α)) (k : String)
    (v : α) (hd : ∀ p ∈ d, p.2 = f p.1) (hv : v = f k) :
    ∀ p ∈ pyDictInsert d k v, p.2 = f p.1 := by
  unfold pyDictInsert
  by_cases hany : d.any (fun p => p.1 == k) = true
  · rw [if_pos hany]
    intro p hp
    obtain ⟨q, hq, rfl⟩ := List.mem_map.mp hp
    by_cases h : q.1 == k
    · rw [if_pos h]
      exact hv
    · rw [if_neg h]
      exact hd q hq
  · rw [if_neg hany]
    intro p hp
    rcases List.mem_append.mp hp with h | h
    · exact hd p h
    · simp at h
      subst h
      exact hv

lemma foldl_pyDictInsert_mem_keys {α : Type} (ps : List (String × α)) :
    ∀ (d : List (String × α)) (a : String),
      a ∈ dictKeys (ps.foldl (fun d p => pyDictInsert d p.1 p.2) d) ↔
        a ∈ dictKeys d ∨ a ∈ ps.map Prod.fst := by
  induction ps with
  | nil => intro d a; simp
  | cons q qs ih =>
    intro d a
    rw [List.foldl_cons, ih (pyDictInsert d q.1 q.2) a, mem_dictKeys_pyDictInsert]
    rw [List.map_cons, List.mem_cons]
    tauto

lemma foldl_pyDictInsert_nodup {α : Type} (ps : List (String × α)) :
    ∀ d : List (String × α), (dictKeys d).Nodup →
      (dictKeys (ps.foldl (fun d p => pyDictInsert d p.1 p.2) d)).Nodup := by
  induction ps with
  | nil => intro d h; exact h
  | cons q qs ih =>
    intro d h
    rw [List.foldl_cons]
    exact ih _ (nodup_dictKeys_pyDictInsert d q.1 q.2 h)

lemma foldl_pyDictInsert_values {α : Type} (f : String → α) (ps : List (String × α)) :
    ∀ d : List (String × α), (∀ p ∈ ps, p.2 = f p.1) → (∀ p ∈ d, p.2 = f p.1) →
      ∀ p ∈ ps.foldl (fun d p => pyDictInsert d p.1 p.2) d, p.2 = f p.1 := by
  induction ps with
  | nil => intro d _ hd; exact hd
  | cons q qs ih =>
    intro d hps hd
    rw [List.foldl_cons]
    refine ih _ (fun p hp => hps p (List.mem_cons_of_mem q hp)) ?_
    exact pyDictInsert_values f d q.1 q.2 hd (hps q (List.mem_cons_self q qs))

lemma dictLookup_of_values {α : Type} (f : String → α) (D : List (String × α)) (k : String)
    (hv : ∀ p ∈ D, p.2 = f p.1) (hk : k ∈ dictKeys D) : dictLookup D k = some (f k) := by
  unfold dictLookup
  obtain ⟨q, hq, rfl⟩ := List.mem_map.mp hk
  have hsome : (D.find? (fun p => p.1 == q.1)).isSome :=
    List.find?_isSome.mpr ⟨q, hq, beq_iff_eq.mpr rfl⟩
  obtain ⟨r, hr⟩ := Option.isSome_iff_exists.mp hsome
  rw [hr]
  have hpr := List.find?_some hr
  have hrk : r.1 = q.1 := by simpa using hpr
  have hrmem := List.mem_of_find?_eq_some hr
  show some r.2 = some (f q.1)
  rw [hv r hrmem, hrk]

lemma zip_map_values {α β : Type} (g : α → β) :
    ∀ (l : List α) (p : α × β), p ∈ l.zip (l.map g) → p.2 = g p.1 := by
  intro l
  induction l with
  | nil => intro p h; simp at h
  | cons a as ih =>
    intro p h
    rw [List.map_cons, List.zip_cons_cons] at h
    rcases List.mem_cons.mp h with rfl | h
    · rfl
    · exact ih p h

lemma processOutcome_eq_none_of_fails (o : HttpOutcome) (h : outcomeFails o) :
    processOutcome o = none := by
  cases o with
  | exn => rfl
  | response status_code body =>
    simp only [processOutcome]
    by_cases hs : 200 ≤ status_code ∧ status_code < 300
    · rw [if_pos hs]
      rcases h with h | h | h | h
      · exfalso; omega
      · exfalso; omega
      · rw [h]
      · cases body with
        | none => rfl
        | some data =>
          cases hext : extractMessage data with
          | none => simp [hext]
          | some j =>
            cases j with
            | obj fields => exact absurd hext (h data rfl fields)
            | null => simp [hext]
            | bool b => simp [hext]
            | num n => simp [hext]
            | str s => simp [hext]
            | arr elems => simp [hext]
    · rw [if_neg hs]

lemma query_model_transport_congr (env : Env) (t1 t2 : Transport) (model_identifier : String)
    (messages : List Message) (timeout : Rat)
    (h : ∀ u hs p, t1 timeout u hs p = t2 timeout u hs p) :
    query_model env t1 model_identifier messages timeout =
      query_model env t2 model_identifier messages timeout := by
  unfold query_model
  cases usedConfig env model_identifier with
  | none => rfl
  | some config =>
    by_cases hkey : pyFalsy config.api_key
    · simp [hkey]
    · simp only [hkey]
      rw [h]

/-! ### Claims -/

/-- C1: whenever every outcome the transport can produce at this timeout is a
failing one (a raised exception, a non-2xx status, a body that is not
JSON, or a body without a `choices[0].message` dict), `query_model`
returns the absence marker `none` — being a total function into
`Option`, it can propagate no fault to its caller. -/
theorem C1_fault_absorbed (env : Env) (transport : Transport) (model_identifier : String)
    (messages : List Message) (timeout : Rat)
    (h : ∀ u hs p, outcomeFails (transport timeout u hs p)) :
    query_model env transport model_identifier messages timeout = none := by
  unfold query_model
  cases usedConfig env model_identifier with
  | none => rfl
  | some config =>
    by_cases hkey : pyFalsy config.api_key
    · simp [hkey]
    · simp only [hkey]
      exact processOutcome_eq_none_of_fails _ (h _ _ _)

theorem C1_fault_absorbed_witness :
    query_model env0 tServerError "openrouter::m" [] = none :=
  C1_fault_absorbed env0 tServerError "openrouter::m" [] 120
    (fun _ _ _ => Or.inr (Or.inl (by norm_num)))

/-- C2: for every transport and input list, the fan-out mapping of
`query_models_parallel` has no duplicate keys and its key set is exactly
the set of input identifiers, whatever each dispatch returned. -/
theorem C2_fanout_complete (env : Env) (transport : Transport)
    (model_identifiers : List String) (messages : List Message) :
    (dictKeys (query_models_parallel env transport model_identifiers messages)).Nodup ∧
      ∀ id, id ∈ dictKeys (query_models_parallel env transport model_identifiers messages) ↔
        id ∈ model_identifiers := by
  have hfst : (model_identifiers.zip (model_identifiers.map
      (fun model_id => query_model env transport model_id messages))).map Prod.fst =
      model_identifiers :=
    List.map_fst_zip _ _ (by rw [List.length_map])
  simp only [query_models_parallel, pyDictOfPairs]
  constructor
  · exact foldl_pyDictInsert_nodup _ [] (by simp [dictKeys])
  · intro id
    rw [foldl_pyDictInsert_mem_keys, hfst]
    simp [dictKeys]

/-- C3: when the provider resolved for the identifier has an unset or empty
credential, `query_model` returns `none`, and its result does not depend
on the transport at all — no network call is made. -/
theorem C3_missing_credential_no_call (env : Env) (t1 t2 : Transport)
    (model_identifier : String) (messages : List Message) (timeout : Rat)
    (h : credentialMissing env model_identifier = true) :
    query_model env t1 model_identifier messages timeout = none ∧
      query_model env t1 model_identifier messages timeout =
        query_model env t2 model_identifier messages timeout := by
  have hnone : ∀ t : Transport, query_model env t model_identifier messages timeout = none := by
    intro t
    unfold credentialMissing at h
    unfold query_model
    cases huc : usedConfig env model_identifier with
    | none => rfl
    | some config =>
      rw [huc] at h
      simp at h
      simp [h]
  exact ⟨hnone t1, (hnone t1).trans (hnone t2).symm⟩

theorem C3_missing_credential_no_call_witness :
    query_model envNoKey tOk "openrouter::m" [] = none ∧
      query_model envNoKey tOk "openrouter::m" [] = query_model envNoKey tExn "openrouter::m" [] :=
  C3_missing_credential_no_call envNoKey tOk tExn "openrouter::m" [] 120 (by decide)

/-- C4: for an identifier of the form `p ++ "::" ++ m`, when provider `p` is
registered at position `i` of `PROVIDER_CONFIGS` with `p ++ "::"` as its
prefix string and no provider registered before position `i` has a prefix
the identifier starts with, resolution yields provider `p` and the bare
model name `m` (exactly the prefix stripped): the scan is in registration
order and the first registered match wins. -/
theorem C4_registered_resolution (env : Env) (p m : String) (config : ProviderConfig) (i : Nat)
    (hget : (PROVIDER_CONFIGS env)[i]? = some (p, config))
    (hpre : ProviderConfig.model_prefix config = p ++ "::")
    (hfirst : ∀ qc ∈ (PROVIDER_CONFIGS env).take i,
      pyStartsWith (p ++ "::" ++ m) ( ProviderConfig.model_prefix qc.2) = false) :
    resolve env (p ++ "::" ++ m) = (some p, m) := by
  have hmatch : pyStartsWith (p ++ "::" ++ m) ( ProviderConfig.model_prefix config) = true := by
    rw [hpre]
    exact pyStartsWith_self_append (p ++ "::") m
  have hfind := find?_of_first (fun pc => pyStartsWith (p ++ "::" ++ m) ( ProviderConfig.model_prefix pc.2))
    (PROVIDER_CONFIGS env) i (p, config) hget hmatch hfirst
  unfold resolve
  rw [hfind]
  show (some p, pyDrop (p ++ "::" ++ m) (pyLen ( ProviderConfig.model_prefix config))) = (some p, m)
  rw [hpre, pyDrop_len_append]

theorem C4_registered_resolution_witness :
    resolve env0 ("deepseek" ++ "::" ++ "deepseek-chat") = (some "deepseek", "deepseek-chat") :=
  C4_registered_resolution env0 "deepseek" "deepseek-chat"
    ⟨some "k2", DEEPSEEK_API_URL, "deepseek::", "Bearer "⟩ 1 rfl (by decide) (by decide)

/-- C5: for an identifier starting with no registered provider's prefix,
resolution yields no provider, the provider used defaults to
`"openrouter"`, and the model name placed in the payload is the
identifier unchanged. -/
theorem C5_default_resolution (env : Env) (model_identifier : String)
    (h : ∀ pc ∈ PROVIDER_CONFIGS env, pyStartsWith model_identifier ( ProviderConfig.model_prefix pc.2) = false) :
    resolve env model_identifier = (none, model_identifier) ∧
      resolvedProviderName env model_identifier = "openrouter" ∧
      resolvedModelName env model_identifier = model_identifier := by
  have hfind : (PROVIDER_CONFIGS env).find?
      (fun pc => pyStartsWith model_identifier ( ProviderConfig.model_prefix pc.2)) = none :=
    List.find?_eq_none.mpr (fun pc hpc => by simp [h pc hpc])
  have hres : resolve env model_identifier = (none, model_identifier) := by
    unfold resolve
    rw [hfind]
  refine ⟨hres, ?_, ?_⟩
  · unfold resolvedProviderName
    rw [hres]
    rfl
  · unfold resolvedModelName
    rw [hres]

theorem C5_default_resolution_witness :
    resolve env0 "gpt-4o" = (none, "gpt-4o") ∧
      resolvedProviderName env0 "gpt-4o" = "openrouter" ∧
      resolvedModelName env0 "gpt-4o" = "gpt-4o" :=
  C5_default_resolution env0 "gpt-4o" (by decide)

/-- C6: against a transport answering with a 2xx status and a JSON body whose
`choices[0].message` is a dict, `query_model` (with a usable credential)
returns the normalized result whose `content` and `reasoning_details` are
read off that dict with `dict.get`, `Json.null` standing for an absent
field; in particular a 200 response with body
`choices[0].message.content = "hi"` yields content `"hi"` and null
reasoning details. -/
theorem C6_success_normalized (env : Env) (model_identifier : String)
    (messages : List Message) (timeout : Rat) (status_code : Nat) (data : Json)
    (message : List (String × Json)) (config : ProviderConfig)
    (hc : usedConfig env model_identifier = some config)
    (hk : pyFalsy config.api_key = false)
    (h2 : 200 ≤ status_code) (h3 : status_code < 300)
    (hext : extractMessage data = some (Json.obj message)) :
    query_model env (fun _ _ _ _ => HttpOutcome.response status_code (some data))
        model_identifier messages timeout =
      some ⟨pyDictGet message "content", pyDictGet message "reasoning_details"⟩ := by
  unfold query_model
  rw [hc]
  simp only [hk, Bool.false_eq_true, if_false]
  simp only [processOutcome]
  rw [if_pos ⟨h2, h3⟩]
  rw [hext]

theorem C6_success_normalized_witness :
    query_model env0 tOk "openrouter::m" [] = some ⟨Json.str "hi", Json.null⟩ :=
  C6_success_normalized env0 "openrouter::m" [] 120 200 okBody
    [("content", Json.str "hi")]
    ⟨some "k1", "https://openrouter.ai/api/v1/chat/completions", "openrouter::", "Bearer "⟩
    rfl rfl (by norm_num) (by norm_num) rfl

/-- C7: when the input list contains an identifier more than once, the fan-out
mapping still has exactly one entry for it, and that entry's value is the
result of dispatching that identifier (each duplicate dispatch is the same
`query_model` call on the same identifier and messages, so the last write
— whichever completes last — stores exactly this value). -/
theorem C7_duplicate_collapse (env : Env) (transport : Transport)
    (model_identifiers : List String) (messages : List Message) (model_id : String)
    (hdup : 1 < model_identifiers.count model_id) :
    (dictKeys (query_models_parallel env transport model_identifiers messages)).count
        model_id = 1 ∧
      dictLookup (query_models_parallel env transport model_identifiers messages) model_id =
        some (query_model env transport model_id messages) := by
  have hmem : model_id ∈ model_identifiers := by
    have hpos : 0 < model_identifiers.count model_id := by omega
    exact List.count_pos_iff.mp hpos
  have hfst : (model_identifiers.zip (model_identifiers.map
      (fun model_id => query_model env transport model_id messages))).map Prod.fst =
      model_identifiers :=
    List.map_fst_zip _ _ (by rw [List.length_map])
  simp only [query_models_parallel, pyDictOfPairs]
  have hkm : model_id ∈ dictKeys ((model_identifiers.zip (model_identifiers.map
      (fun model_id => query_model env transport model_id messages))).foldl
        (fun d p => pyDictInsert d p.1 p.2) []) := by
    rw [foldl_pyDictInsert_mem_keys, hfst]
    exact Or.inr hmem
  have hnd := foldl_pyDictInsert_nodup (model_identifiers.zip (model_identifiers.map
      (fun model_id => query_model env transport model_id messages))) [] (by simp [dictKeys])
  constructor
  · exact List.count_eq_one_of_mem hnd hkm
  · exact dictLookup_of_values (fun model_id => query_model env transport model_id messages) _
      model_id
      (foldl_pyDictInsert_values _ _ [] (zip_map_values _ model_identifiers) (by simp)) hkm

theorem C7_duplicate_collapse_witness :
    (dictKeys (query_models_parallel env0 tExn ["openrouter::a", "openrouter::a"] [])).count
        "openrouter::a" = 1 ∧
      dictLookup (query_models_parallel env0 tExn ["openrouter::a", "openrouter::a"] [])
          "openrouter::a" =
        some (query_model env0 tExn "openrouter::a" []) :=
  C7_duplicate_collapse env0 tExn ["openrouter::a", "openrouter::a"] [] "openrouter::a"
    (by decide)

/-- C9: on the empty identifier list the fan-out returns the empty mapping,
and does so for every transport alike — no dispatch happens. -/
theorem C9_empty_fanout (env : Env) (transport : Transport) (messages : List Message) :
    query_models_parallel env transport [] messages = [] ∧
      ∀ t2 : Transport, query_models_parallel env transport [] messages =
        query_models_parallel env t2 [] messages :=
  ⟨rfl, fun _ => rfl⟩

/-- C10: the fan-out dispatches every identifier through `query_model` at the
default timeout 120: two transports that agree at timeout 120 (and may
differ at every other timeout) give identical fan-out results, and the
result is exactly the dict of per-identifier `query_model` calls with
timeout 120. -/
theorem C10_default_timeout (env : Env) (t1 t2 : Transport)
    (model_identifiers : List String) (messages : List Message)
    (h : ∀ u hs p, t1 120 u hs p = t2 120 u hs p) :
    query_models_parallel env t1 model_identifiers messages =
        query_models_parallel env t2 model_identifiers messages ∧
      query_models_parallel env t1 model_identifiers messages =
        pyDictOfPairs (model_identifiers.zip (model_identifiers.map
          (fun model_id => query_model env t1 model_id messages 120))) := by
  constructor
  · simp only [query_models_parallel]
    have hm : model_identifiers.map (fun model_id => query_model env t1 model_id messages) =
        model_identifiers.map (fun model_id => query_model env t2 model_id messages) :=
      List.map_congr_left
        (fun model_id _ => query_model_transport_congr env t1 t2 model_id messages 120 h)
    rw [hm]
  · rfl

theorem C10_default_timeout_witness :
    query_models_parallel env0 tExn ["openrouter::a"] [] =
        query_models_parallel env0 tTimeoutSensitive ["openrouter::a"] [] ∧
      query_models_parallel env0 tExn ["openrouter::a"] [] =
        pyDictOfPairs (["openrouter::a"].zip (["openrouter::a"].map
          (fun model_id => query_model env0 tExn model_id [] 120))) :=
  C10_default_timeout env0 tExn tTimeoutSensitive ["openrouter::a"] []
    (fun _ _ _ => by simp [tExn, tTimeoutSensitive])

end LlmCouncil
